import Mathlib

/-!
Verification of the `midnightntwrk/example-counter` CLI against its
natural-language specification.  The TypeScript sources under
`counter-cli/src` are shallowly embedded below: wallet-state streams become
lists of snapshots, promises that resolve on the first state matching a
filter become `List.find?`, thrown errors become `Except.error`, and the
side-effecting SDK calls performed by a pipeline are recorded in explicit
event logs.  Every definition mirrors the corresponding source function.
-/

namespace ExampleCounter

/-! ### Wallet state snapshots (wallet SDK facade state, as read by api.ts) -/

/-- Metadata attached to an unshielded Night coin
(`coin.meta.registeredForDustGeneration` in `checkDustStatus`). -/
structure CoinMeta where
  registeredForDustGeneration : Bool
deriving DecidableEq, Repr

/-- An unshielded Night UTXO as inspected by `checkDustStatus`. -/
structure NightCoin where
  meta : CoinMeta
deriving DecidableEq, Repr

/-- The `state.unshielded` component: its list of available coins. -/
structure UnshieldedComponent where
  availableCoins : List NightCoin
deriving DecidableEq, Repr

/-- The `state.dust` component: `walletBalance(new Date())` is embedded as
the balance observed at the time of the call. -/
structure DustComponent where
  walletBalance : Int
deriving DecidableEq, Repr

/-- One snapshot emitted by `wallet.state()`; the optional components model
the `state.dust?` / `state.unshielded?` optional chaining in the source. -/
structure WalletStateSnapshot where
  isSynced : Bool
  dust : Option DustComponent
  unshielded : Option UnshieldedComponent
deriving DecidableEq, Repr

/-- `DustStatus` as returned by `checkDustStatus` (api.ts lines 228-232). -/
structure DustStatus where
  dustBalance : Int
  unregisteredUtxoCount : Nat
  hasSufficientDust : Bool
deriving DecidableEq, Repr

/-- The body of `checkDustStatus` applied to the synced snapshot it obtained:
`dustBalance = state.dust?.walletBalance(new Date()) ?? 0n`,
`unregisteredNightUtxos = state.unshielded?.availableCoins.filter
  ((coin) => coin.meta.registeredForDustGeneration === false) ?? []`,
`hasSufficientDust = dustBalance > 0n`. -/
def mkDustStatus (s : WalletStateSnapshot) : DustStatus :=
  let dustBalance := (s.dust.map (fun d => d.walletBalance)).getD 0
  let unregisteredNightUtxos :=
    ((s.unshielded.map (fun u => u.availableCoins)).getD []).filter
      (fun coin => coin.meta.registeredForDustGeneration == false)
  { dustBalance := dustBalance
    unregisteredUtxoCount := unregisteredNightUtxos.length
    hasSufficientDust := decide (dustBalance > 0) }

/-- `checkDustStatus` (api.ts lines 237-253): awaits the first snapshot of
`wallet.state()` with `isSynced` (an `Rx.filter` on the stream, embedded as
`List.find?` over the emitted snapshots) and computes the `DustStatus` from
it.  `none` means the stream never emits a synced snapshot, in which case the
promise never resolves: no status is produced and no error is thrown. -/
def checkDustStatus (states : List WalletStateSnapshot) : Option DustStatus :=
  (states.find? (fun s => s.isSynced)).map mkDustStatus

/-! ### The transaction pipeline inside `createWalletAndMidnightProvider`
(api.ts lines 140-181).  The wallet-SDK calls are embedded as constructors
of the staged transaction types, and each call appends its stage to an
explicit event log so that the order and multiplicity of the stages
performed by one `balanceTx` call are observable. -/

/-- A draft transaction as handed to `balanceTx` (`UnboundTransaction`). -/
structure UnboundTransaction where
  intent : Nat
deriving DecidableEq, Repr

/-- The result of `tx.bind()`. -/
structure BoundTransaction where
  source : UnboundTransaction
deriving DecidableEq, Repr

/-- A balanced transaction recipe (`FinalizedTransactionRecipe` in the SDK):
the bound draft plus the funding/fee allocation bound by the given ttl.
`signedByKeystore` records whether `signRecipe` has been applied. -/
structure TransactionRecipe where
  bound : BoundTransaction
  ttl : Nat
  signedByKeystore : Bool
deriving DecidableEq, Repr

/-- `ledger.FinalizedTransaction`, produced by `finalizeRecipe`. -/
structure FinalizedTransaction where
  recipe : TransactionRecipe
deriving DecidableEq, Repr

/-- One pipeline stage performed by `balanceTx`. -/
inductive TxStage where
  | bindStage
  | balanceStage
  | signStage
  | finalizeStage
deriving DecidableEq, Repr

/-- `tx.bind()`: binds the draft, logging the stage. -/
def bindTx (log : List TxStage) (tx : UnboundTransaction) :
    List TxStage × BoundTransaction :=
  (log ++ [TxStage.bindStage], { source := tx })

/-- `wallet.balanceFinalizedTransaction(bound, keys, { ttl })`: balances the
bound draft against wallet funds, producing a recipe that is not yet
signed. -/
def balanceFinalizedTransaction (log : List TxStage) (bound : BoundTransaction)
    (ttl : Nat) : List TxStage × TransactionRecipe :=
  (log ++ [TxStage.balanceStage], { bound := bound, ttl := ttl, signedByKeystore := false })

/-- `wallet.signRecipe(recipe, signData)`: signs the recipe with the
unshielded keystore callback. -/
def signRecipe (log : List TxStage) (recipe : TransactionRecipe) :
    List TxStage × TransactionRecipe :=
  (log ++ [TxStage.signStage], { recipe with signedByKeystore := true })

/-- `wallet.finalizeRecipe(signed)`: finalizes the signed recipe. -/
def finalizeRecipe (log : List TxStage) (recipe : TransactionRecipe) :
    List TxStage × FinalizedTransaction :=
  (log ++ [TxStage.finalizeStage], { recipe := recipe })

/-- `balanceTx` (api.ts lines 155-176).  Time is in milliseconds, `now`
standing for `Date.now()`:
`txTtl = ttl ?? new Date(Date.now() + 30 * 60 * 1000)`, then
bind, balance, sign, finalize, in source order. -/
def balanceTx (tx : UnboundTransaction) (ttl : Option Nat) (now : Nat) :
    List TxStage × FinalizedTransaction :=
  let txTtl := ttl.getD (now + 30 * 60 * 1000)
  let step1 := bindTx [] tx
  let step2 := balanceFinalizedTransaction step1.1 step1.2 txTtl
  let step3 := signRecipe step2.1 step2.2
  let step4 := finalizeRecipe step3.1 step3.2
  step4

/-! ### `registerForDustProduction` (api.ts lines 260-335).
The submission attempt and the two bounded waits for dust are embedded as
explicit inputs: `submitResult` is the outcome of
`wallet.submitTransaction`, `dustWithin60s` says whether the post-submission
wait (`Rx.timeout(60_000)`) observes a positive dust balance before timing
out, and `dustWithin30s` the same for the fallback wait
(`Rx.timeout(30_000)`) inside the catch handler. -/

/-- Substring check over character lists, embedding JavaScript
`String.prototype.includes`. -/
def containsSub : List Char → List Char → Bool
  | [], needle => needle.isEmpty
  | h :: t, needle => needle.isPrefixOf (h :: t) || containsSub t needle

/-- `errorMessage.includes(pat)` for strings. -/
def strIncludes (s pat : String) : Bool :=
  containsSub s.data pat.data

/-- The message of the error rxjs `Rx.timeout` rejects with. -/
def rxTimeoutMessage : String := "Timeout has occurred"

/-- The catch handler of `registerForDustProduction` (api.ts lines 304-334):
`errorMessage.includes('139') || errorMessage.includes('Invalid
Transaction')` selects the fallback wait, whose outcome (dust observed
within the 30-second timeout or not) becomes the returned Bool; any other
error is rethrown unchanged. -/
def handleRegistrationError (errorMessage : String) (dustWithin30s : Bool) :
    Except String Bool :=
  if strIncludes errorMessage ("139") || strIncludes errorMessage ("Invalid Transaction") then
    Except.ok dustWithin30s
  else
    Except.error errorMessage

/-- `registerForDustProduction` (api.ts lines 260-335): returns `false` with
no registration when no unshielded coins are available; otherwise submits
the registration transaction.  A successful submission is followed by the
60-second wait for dust (whose timeout error is caught by the same handler);
a failed submission goes to the catch handler directly. -/
def registerForDustProduction (availableCoinsCount : Nat)
    (submitResult : Except String Unit) (dustWithin60s dustWithin30s : Bool) :
    Except String Bool :=
  if availableCoinsCount = 0 then
    Except.ok false
  else
    match submitResult with
    | Except.ok _ =>
        if dustWithin60s then Except.ok true
        else handleRegistrationError rxTimeoutMessage dustWithin30s
    | Except.error msg => handleRegistrationError msg dustWithin30s

/-! ### The CLI flow around dust registration (cli.ts lines 102-127 and
179-205).  The interactive session is embedded as a trace of the observable
steps the CLI performs; `answer` is the user's reply to the registration
prompt and `userIncrements` whether the user later picks `Increment` in the
main loop (each increment balances a transaction through `balanceTx`). -/

/-- Observable steps of one CLI session after the wallet is built. -/
inductive CliStep where
  | resolvedDustStatus
  | promptedForRegistration
  | attemptedRegistration
  | skippedRegistration
  | noUtxoNotice
  | providersConfigured
  | enteredMainLoop
  | balancedTransaction
deriving DecidableEq, Repr

/-- `answer.toLowerCase()`: character-wise lowercasing of the reply. -/
def toLowerCase (s : String) : String :=
  String.mk (s.data.map Char.toLower)

/-- `handleDustRegistration` (cli.ts lines 102-127): checks the dust status;
if unregistered UTXOs exist it prompts and, on a `y`/`yes` answer, attempts
registration, otherwise logs that registration is skipped; with no
unregistered UTXOs and no dust it logs a notice.  It never aborts the
session. -/
def handleDustRegistration (dustStatus : DustStatus) (answer : String) :
    List CliStep :=
  CliStep.resolvedDustStatus ::
    (if dustStatus.unregisteredUtxoCount > 0 then
      CliStep.promptedForRegistration ::
        (if toLowerCase answer = ("y") ∨ toLowerCase answer = ("yes") then
          [CliStep.attemptedRegistration]
        else
          [CliStep.skippedRegistration])
    else if dustStatus.hasSufficientDust = false then
      [CliStep.noUtxoNotice]
    else
      [])

/-- The body of `run` once a wallet context exists (cli.ts lines 197-205):
`handleDustRegistration`, then `configureProviders`, then `mainLoop`,
unconditionally; choosing `Increment` in the main loop balances a
transaction via the provider's `balanceTx`. -/
def runSession (dustStatus : DustStatus) (answer : String)
    (userIncrements : Bool) : List CliStep :=
  handleDustRegistration dustStatus answer ++
    [CliStep.providersConfigured, CliStep.enteredMainLoop] ++
    (if userIncrements then [CliStep.balancedTransaction] else [])

/-! ### The voting API (voting-api.ts) and the counter queries it shares
with api.ts.  Contract addresses are strings; the indexer is embedded as a
`PublicDataProvider` giving, per address, whether the address is
well-formed and the contract state stored there (if any). -/

/-- Contract addresses as used by both CLIs. -/
abbrev ContractAddress := String

/-- The ledger state of one deployed counter contract; `round` is the
counter value read by `CompiledCounter.ledger(state.data.state).round`. -/
structure ContractLedgerState where
  round : Int
deriving DecidableEq, Repr

/-- The public data provider: address validity
(`assertIsContractAddress`) and `queryContractState`, where `none` embeds a
`null` contract state at that address. -/
structure PublicDataProvider where
  validAddress : ContractAddress → Bool
  contractState : ContractAddress → Option ContractLedgerState

/-- `getCounterLedgerState` (api.ts lines 75-86): asserts the address is a
contract address (throwing otherwise), queries the contract state and
returns its `round` field, or `null` when the provider has no state at the
address. -/
def getCounterLedgerState (providers : PublicDataProvider)
    (contractAddress : ContractAddress) : Except String (Option Int) :=
  if providers.validAddress contractAddress then
    Except.ok ((providers.contractState contractAddress).map (fun cs => cs.round))
  else
    Except.error ("not a contract address")

/-- What `displayCounterValue` logs about the counter. -/
inductive CounterMessage where
  | noContractDeployed (addr : ContractAddress)
  | currentValue (v : Int)
deriving DecidableEq, Repr

/-- The result record of `displayCounterValue`, extended with the message it
logs. -/
structure DisplayResult where
  message : CounterMessage
  contractAddress : ContractAddress
  counterValue : Option Int
deriving DecidableEq, Repr

/-- `displayCounterValue` (api.ts lines 123-135): reads the ledger state of
the contract's address and logs `there is no counter contract deployed`
exactly when the value is `null`, the current value otherwise. -/
def displayCounterValue (providers : PublicDataProvider)
    (contractAddress : ContractAddress) : Except String DisplayResult :=
  match getCounterLedgerState providers contractAddress with
  | Except.error e => Except.error e
  | Except.ok none =>
      Except.ok { message := CounterMessage.noContractDeployed contractAddress
                  contractAddress := contractAddress
                  counterValue := none }
  | Except.ok (some v) =>
      Except.ok { message := CounterMessage.currentValue v
                  contractAddress := contractAddress
                  counterValue := some v }

/-- A vote choice (`'yes' | 'no' | 'abstain'`). -/
inductive Vote where
  | yes
  | no
  | abstain
deriving DecidableEq, Repr

/-- `VotingSystemState` (voting-api.ts lines 18-25). -/
structure VotingSystemState where
  yesContractAddress : Option ContractAddress
  noContractAddress : Option ContractAddress
  abstainContractAddress : Option ContractAddress
  pollQuestion : String
  hasVoted : Bool
  myVote : Option Vote
deriving DecidableEq, Repr

/-- Contract interactions `castVote` can perform, in order. -/
inductive VoteEffect where
  | lookedUpContract (addr : ContractAddress)
  | incrementedContract (addr : ContractAddress)
deriving DecidableEq, Repr

/-- `castVote` (voting-api.ts lines 90-136): rejects immediately when the
state says the user has voted; otherwise selects the contract address for
the chosen option (rejecting when it is missing), joins that contract and
increments its counter, and returns the input state with `hasVoted` set and
`myVote` recorded.  The first component lists the contract interactions
performed. -/
def castVote (votingState : VotingSystemState) (vote : Vote) :
    List VoteEffect × Except String VotingSystemState :=
  if votingState.hasVoted then
    ([], Except.error ("You have already voted in this poll!"))
  else
    let selected : Except String ContractAddress :=
      match vote with
      | Vote.yes =>
          match votingState.yesContractAddress with
          | none => Except.error ("YES contract not found")
          | some a => Except.ok a
      | Vote.no =>
          match votingState.noContractAddress with
          | none => Except.error ("NO contract not found")
          | some a => Except.ok a
      | Vote.abstain =>
          match votingState.abstainContractAddress with
          | none => Except.error ("ABSTAIN contract not found")
          | some a => Except.ok a
    match selected with
    | Except.error e => ([], Except.error e)
    | Except.ok addr =>
        ([VoteEffect.lookedUpContract addr, VoteEffect.incrementedContract addr],
          Except.ok { votingState with hasVoted := true, myVote := some vote })

/-- The tallies returned by `getVotingResults`. -/
structure VotingResults where
  yes : Int
  no : Int
  abstain : Int
  total : Int
deriving DecidableEq, Repr

/-- One `if (votingState.xContractAddress) { x = (await getCounterLedgerState
...) ?? 0n; }` block of `getVotingResults`: the tally stays `0n` when the
address is absent, otherwise the awaited query result with `?? 0n`; a query
rejection propagates. -/
def tallyOption (providers : PublicDataProvider)
    (addr : Option ContractAddress) : Except String Int :=
  match addr with
  | none => Except.ok 0
  | some a =>
      match getCounterLedgerState providers a with
      | Except.error e => Except.error e
      | Except.ok count => Except.ok (count.getD 0)

/-- `getVotingResults` (voting-api.ts lines 139-167): the three tallies are
computed by three independent counter queries in sequence, and
`total = yes + no + abstain`. -/
def getVotingResults (providers : PublicDataProvider)
    (votingState : VotingSystemState) : Except String VotingResults :=
  match tallyOption providers votingState.yesContractAddress with
  | Except.error e => Except.error e
  | Except.ok yes =>
      match tallyOption providers votingState.noContractAddress with
      | Except.error e => Except.error e
      | Except.ok no =>
          match tallyOption providers votingState.abstainContractAddress with
          | Except.error e => Except.error e
          | Except.ok abstain =>
              Except.ok { yes := yes, no := no, abstain := abstain
                          total := yes + no + abstain }

/-- Specification-side tally, following the spec's words for one option: the
queried counter value of the corresponding contract, and `0` whenever that
contract address is absent or its ledger state is unavailable. -/
def specTally (providers : PublicDataProvider)
    (addr : Option ContractAddress) : Int :=
  match addr with
  | none => 0
  | some a => ((providers.contractState a).map (fun cs => cs.round)).getD 0

/-! ### Helper lemmas -/

/-- `containsSub` decides list containment of a contiguous substring. -/
theorem containsSub_iff_isInfix (hay needle : List Char) :
    containsSub hay needle = true ↔ needle <:+: hay := by
  induction hay with
  | nil =>
      simp only [containsSub, List.isEmpty_iff, List.infix_nil]
  | cons h t ih =>
      simp only [containsSub, Bool.or_eq_true, List.isPrefixOf_iff_prefix, ih,
        List.infix_cons_iff]

/-- `strIncludes` is JavaScript substring containment. -/
theorem strIncludes_iff_isInfix (s pat : String) :
    strIncludes s pat = true ↔ pat.data <:+: s.data :=
  containsSub_iff_isInfix s.data pat.data

/-- A successful option tally is exactly the spec-side tally. -/
theorem tallyOption_ok (providers : PublicDataProvider)
    (addr : Option ContractAddress) (v : Int)
    (h : tallyOption providers addr = Except.ok v) :
    v = specTally providers addr := by
  cases addr with
  | none =>
      simp only [tallyOption] at h
      cases h
      simp [specTally]
  | some a =>
      simp only [tallyOption, getCounterLedgerState] at h
      by_cases hv : providers.validAddress a = true
      · rw [if_pos hv] at h
        cases h
        simp [specTally]
      · rw [if_neg hv] at h
        exact Except.noConfusion h

/-! ### Claim theorems -/

/-- C1: for every synced wallet state reached by `checkDustStatus`, the
returned `DustStatus` has `hasSufficientDust = true` iff the dust balance is
strictly greater than `0`. -/
theorem checkDustStatus_hasSufficientDust (states : List WalletStateSnapshot)
    (ds : DustStatus) (h : checkDustStatus states = some ds) :
    ds.hasSufficientDust = true ↔ 0 < ds.dustBalance := by
  unfold checkDustStatus at h
  rcases Option.map_eq_some'.mp h with ⟨s, _, rfl⟩
  simp [mkDustStatus]

/-- Witness for C1: the boundary dust balance `1` yields
`hasSufficientDust = true`, and balance `0` yields `false`. -/
theorem checkDustStatus_hasSufficientDust_witness :
    (mkDustStatus ⟨true, some ⟨1⟩, none⟩).hasSufficientDust = true ∧
    (mkDustStatus ⟨true, some ⟨0⟩, none⟩).hasSufficientDust ≠ true := by
  constructor
  · exact (checkDustStatus_hasSufficientDust [⟨true, some ⟨1⟩, none⟩]
      _ rfl).mpr (by decide)
  · intro hs
    exact absurd ((checkDustStatus_hasSufficientDust [⟨true, some ⟨0⟩, none⟩]
      _ rfl).mp hs) (by decide)

/-- C4 counterexample: a `checkDustStatus` call started while the wallet
state has not reached a synchronized snapshot (the stream's first snapshot
is unsynced) does not fail with any error: it proceeds and returns the
status computed from the later synced snapshot. -/
theorem checkDustStatus_unsynced_no_error :
    ((⟨false, some ⟨5⟩, none⟩ : WalletStateSnapshot)).isSynced = false ∧
    checkDustStatus [⟨false, some ⟨5⟩, none⟩, ⟨true, some ⟨3⟩, none⟩]
      = some (mkDustStatus ⟨true, some ⟨3⟩, none⟩) := by
  constructor
  · rfl
  · rfl

/-- C4 (amended): `checkDustStatus` never computes a status from an
unsynced snapshot: it suspends on the state stream, returns nothing at all
(and throws nothing) while no synced snapshot has been emitted, and any
status it returns is computed from a synced snapshot of the stream. -/
theorem checkDustStatus_waits_for_synced (states : List WalletStateSnapshot) :
    ((∀ s ∈ states, s.isSynced = false) → checkDustStatus states = none) ∧
    (∀ ds, checkDustStatus states = some ds →
      ∃ s, s ∈ states ∧ s.isSynced = true ∧ ds = mkDustStatus s) := by
  constructor
  · intro hall
    have hfind : states.find? (fun s => s.isSynced) = none :=
      List.find?_eq_none.mpr (fun x hx => by simp [hall x hx])
    simp [checkDustStatus, hfind]
  · intro ds h
    unfold checkDustStatus at h
    rcases Option.map_eq_some'.mp h with ⟨s, hfind, rfl⟩
    exact ⟨s, List.mem_of_find?_eq_some hfind, by
      simpa using List.find?_some hfind, rfl⟩

/-- Witness for C4 (amended): on a stream with only unsynced snapshots,
`checkDustStatus` produces nothing. -/
theorem checkDustStatus_waits_for_synced_witness :
    checkDustStatus [⟨false, none, none⟩] = none :=
  (checkDustStatus_waits_for_synced [⟨false, none, none⟩]).1 (by decide)

/-- C2: when `balanceTx` is called without a ttl, the balanced transaction
carries `Date.now() + 30` minutes (in milliseconds) as its time-to-live;
a supplied ttl is used unchanged. -/
theorem balanceTx_ttl_default (tx : UnboundTransaction) (now t : Nat) :
    (balanceTx tx none now).2.recipe.ttl = now + 30 * 60 * 1000 ∧
    (balanceTx tx (some t) now).2.recipe.ttl = t :=
  ⟨rfl, rfl⟩

/-- C3: one `balanceTx` call performs bind, balance, sign, finalize in that
strict order, each exactly once; the balancing stage's recipe is not yet
signed; the finalized result is the finalization of the signed balanced
bound draft; and runs on distinct drafts share no intermediate recipe. -/
theorem balanceTx_pipeline (tx tx2 : UnboundTransaction) (ttl : Option Nat)
    (now now2 : Nat) (hne : tx ≠ tx2) :
    (balanceTx tx ttl now).1
      = [TxStage.bindStage, TxStage.balanceStage, TxStage.signStage,
          TxStage.finalizeStage] ∧
    (∀ stage, (balanceTx tx ttl now).1.count stage = 1) ∧
    (∀ log bound t,
      (balanceFinalizedTransaction log bound t).2.signedByKeystore = false) ∧
    (balanceTx tx ttl now).2
      = { recipe := { bound := { source := tx }
                      ttl := ttl.getD (now + 30 * 60 * 1000)
                      signedByKeystore := true } } ∧
    (balanceTx tx ttl now).2.recipe ≠ (balanceTx tx2 ttl now2).2.recipe := by
  refine ⟨rfl, ?_, fun _ _ _ => rfl, rfl, ?_⟩
  · intro stage
    cases stage <;> rfl
  · intro hc
    apply hne
    have hsrc := congrArg (fun r => r.bound.source) hc
    simpa [balanceTx, bindTx, balanceFinalizedTransaction, signRecipe,
      finalizeRecipe] using hsrc

/-- Witness for C3 at two concrete distinct drafts. -/
theorem balanceTx_pipeline_witness :
    (balanceTx ⟨1⟩ none 0).1
      = [TxStage.bindStage, TxStage.balanceStage, TxStage.signStage,
          TxStage.finalizeStage] ∧
    (balanceTx ⟨1⟩ none 0).2.recipe ≠ (balanceTx ⟨2⟩ none 0).2.recipe := by
  obtain ⟨h1, _, _, _, h5⟩ := balanceTx_pipeline ⟨1⟩ ⟨2⟩ none 0 0 (by decide)
  exact ⟨h1, h5⟩

/-- C5 counterexample: with dust balance `0` (so `hasSufficientDust =
false`), one unregistered UTXO and the user declining registration, the CLI
session never attempts registration yet still reaches the main loop and
balances a transaction when the user increments. -/
theorem runSession_balances_without_registration :
    ((⟨0, 1, false⟩ : DustStatus)).hasSufficientDust = false ∧
    CliStep.attemptedRegistration ∉ runSession ⟨0, 1, false⟩ ("n") true ∧
    CliStep.balancedTransaction ∈ runSession ⟨0, 1, false⟩ ("n") true := by
  refine ⟨rfl, ?_, ?_⟩
  · decide
  · decide

/-- C5 (amended): when the resolver reports `hasSufficientDust = false` the
CLI surfaces the need for fee registration to the user (a prompt when
unregistered UTXOs exist, a notice otherwise), but then proceeds to the
main loop regardless of the registration outcome, so balancing remains
reachable without fee registration. -/
theorem runSession_surfaces_and_proceeds (ds : DustStatus) (answer : String)
    (inc : Bool) (h : ds.hasSufficientDust = false) :
    (0 < ds.unregisteredUtxoCount →
      CliStep.promptedForRegistration ∈ runSession ds answer inc) ∧
    (ds.unregisteredUtxoCount = 0 →
      CliStep.noUtxoNotice ∈ runSession ds answer inc) ∧
    CliStep.enteredMainLoop ∈ runSession ds answer inc ∧
    (inc = true → CliStep.balancedTransaction ∈ runSession ds answer inc) := by
  refine ⟨?_, ?_, ?_, ?_⟩
  · intro hu
    unfold runSession handleDustRegistration
    simp [hu]
  · intro hu
    unfold runSession handleDustRegistration
    simp [hu, h]
  · unfold runSession
    simp
  · intro hinc
    unfold runSession
    simp [hinc]

/-- Witness for C5 (amended) at a concrete dust-less status. -/
theorem runSession_surfaces_and_proceeds_witness :
    CliStep.noUtxoNotice ∈ runSession ⟨0, 0, false⟩ ("n") false :=
  (runSession_surfaces_and_proceeds ⟨0, 0, false⟩ ("n") false rfl).2.1 rfl

/-- C6: when some coins are available and submission of the dust
registration fails, `registerForDustProduction` swallows the error exactly
when its message contains the substring `139` or `Invalid Transaction`,
returning whether dust appeared within the bounded fallback wait; any other
submission error is rethrown unchanged. -/
theorem registerForDustProduction_error_policy (n : Nat) (msg : String)
    (d60 d30 : Bool) (hn : n ≠ 0) :
    ((("139").data <:+: msg.data ∨ ("Invalid Transaction").data <:+: msg.data) →
      registerForDustProduction n (Except.error msg) d60 d30 = Except.ok d30) ∧
    (¬ (("139").data <:+: msg.data ∨ ("Invalid Transaction").data <:+: msg.data) →
      registerForDustProduction n (Except.error msg) d60 d30
        = Except.error msg) := by
  have hmatch : (strIncludes msg ("139") || strIncludes msg ("Invalid Transaction")) = true
      ↔ (("139").data <:+: msg.data ∨ ("Invalid Transaction").data <:+: msg.data) := by
    simp [Bool.or_eq_true, strIncludes_iff_isInfix]
  constructor
  · intro hcond
    simp [registerForDustProduction, hn, handleRegistrationError, hmatch.mpr hcond]
  · intro hcond
    have hfalse : (strIncludes msg ("139") || strIncludes msg ("Invalid Transaction")) = false := by
      rcases hb : (strIncludes msg ("139") || strIncludes msg ("Invalid Transaction")) with _ | _
      · rfl
      · exact absurd (hmatch.mp hb) hcond
    simp [registerForDustProduction, hn, handleRegistrationError, hfalse]

/-- Witness for C6: an error mentioning `139` is swallowed in favour of the
fallback dust wait; an unrelated error is rethrown unchanged. -/
theorem registerForDustProduction_error_policy_witness :
    registerForDustProduction 1 (Except.error ("tx failed with 139")) false true
      = Except.ok true ∧
    registerForDustProduction 1 (Except.error ("boom")) false true
      = Except.error ("boom") := by
  constructor
  · exact (registerForDustProduction_error_policy 1 ("tx failed with 139")
      false true (by decide)).1 (Or.inl ⟨("tx failed with ").data, [], by decide⟩)
  · exact (registerForDustProduction_error_policy 1 ("boom") false true
      (by decide)).2 (by decide)

/-- C8: a successful `getVotingResults` returns a total that is exactly
`yes + no + abstain`, and each tally is the queried counter value of the
corresponding contract, `0` when its address is absent or its ledger state
is unavailable (as captured by `specTally`). -/
theorem getVotingResults_aggregates (providers : PublicDataProvider)
    (votingState : VotingSystemState) (r : VotingResults)
    (h : getVotingResults providers votingState = Except.ok r) :
    r.total = r.yes + r.no + r.abstain ∧
    r.yes = specTally providers votingState.yesContractAddress ∧
    r.no = specTally providers votingState.noContractAddress ∧
    r.abstain = specTally providers votingState.abstainContractAddress := by
  unfold getVotingResults at h
  cases hy : tallyOption providers votingState.yesContractAddress with
  | error e => rw [hy] at h; exact Except.noConfusion h
  | ok yes =>
      rw [hy] at h
      cases hn : tallyOption providers votingState.noContractAddress with
      | error e => rw [hn] at h; exact Except.noConfusion h
      | ok no =>
          rw [hn] at h
          cases ha : tallyOption providers votingState.abstainContractAddress with
          | error e => rw [ha] at h; exact Except.noConfusion h
          | ok abstain =>
              rw [ha] at h
              cases h
              exact ⟨rfl, tallyOption_ok providers _ _ hy,
                tallyOption_ok providers _ _ hn, tallyOption_ok providers _ _ ha⟩

/-- Provider used by the C8 witness: every address is well-formed, and only
`yesAddr` has a deployed contract, with counter value `7`. -/
def witnessProviders : PublicDataProvider :=
  { validAddress := fun _ => true
    contractState := fun a =>
      if a = ("yesAddr") then some ({ round := 7 }) else none }

/-- Voting state used by the C8 witness: a yes and a no contract address,
no abstain address. -/
def witnessVotingState : VotingSystemState :=
  { yesContractAddress := some ("yesAddr")
    noContractAddress := some ("noAddr")
    abstainContractAddress := none
    pollQuestion := ("q")
    hasVoted := false
    myVote := none }

/-- Witness for C8 at a concrete provider and voting state. -/
theorem getVotingResults_aggregates_witness :
    ((⟨7, 0, 0, 7⟩ : VotingResults)).total
        = ((⟨7, 0, 0, 7⟩ : VotingResults)).yes + ((⟨7, 0, 0, 7⟩ : VotingResults)).no
            + ((⟨7, 0, 0, 7⟩ : VotingResults)).abstain ∧
    ((⟨7, 0, 0, 7⟩ : VotingResults)).yes
        = specTally witnessProviders witnessVotingState.yesContractAddress :=
  ⟨(getVotingResults_aggregates witnessProviders witnessVotingState ⟨7, 0, 0, 7⟩ rfl).1,
   (getVotingResults_aggregates witnessProviders witnessVotingState ⟨7, 0, 0, 7⟩ rfl).2.1⟩

/-- C9: when the voting state records `hasVoted = true`, `castVote` rejects
with the already-voted error before performing any contract lookup or
increment (its effect list is empty, and the pure input state is returned
unchanged to the caller only through the error); moreover every successful
`castVote` marks the produced state as voted, so no state accepted by a
vote can vote again. -/
theorem castVote_already_voted (votingState : VotingSystemState) (vote : Vote)
    (h : votingState.hasVoted = true) :
    castVote votingState vote
      = ([], Except.error ("You have already voted in this poll!")) ∧
    (∀ vs eff vsNew, castVote vs vote = (eff, Except.ok vsNew) →
      vsNew.hasVoted = true) := by
  constructor
  · simp [castVote, h]
  · intro vs eff vsNew hcall
    by_cases hv : vs.hasVoted = true
    · simp [castVote, hv] at hcall
    · unfold castVote at hcall
      rw [if_neg hv] at hcall
      cases vote with
      | yes =>
          cases hy : vs.yesContractAddress with
          | none => rw [hy] at hcall; simp at hcall
          | some a =>
              rw [hy] at hcall
              simp only [Prod.mk.injEq, Except.ok.injEq] at hcall
              obtain ⟨-, rfl⟩ := hcall
              rfl
      | no =>
          cases hy : vs.noContractAddress with
          | none => rw [hy] at hcall; simp at hcall
          | some a =>
              rw [hy] at hcall
              simp only [Prod.mk.injEq, Except.ok.injEq] at hcall
              obtain ⟨-, rfl⟩ := hcall
              rfl
      | abstain =>
          cases hy : vs.abstainContractAddress with
          | none => rw [hy] at hcall; simp at hcall
          | some a =>
              rw [hy] at hcall
              simp only [Prod.mk.injEq, Except.ok.injEq] at hcall
              obtain ⟨-, rfl⟩ := hcall
              rfl

/-- Witness for C9: a voted state rejects a further yes vote. -/
theorem castVote_already_voted_witness :
    castVote ⟨none, none, none, ("q"), true, some Vote.yes⟩ Vote.yes
      = ([], Except.error ("You have already voted in this poll!")) :=
  (castVote_already_voted ⟨none, none, none, ("q"), true, some Vote.yes⟩
    Vote.yes rfl).1

/-- C10: on a valid contract address, `getCounterLedgerState` returns (does
not throw) `null` exactly when the provider has no contract state there,
returns exactly the `round` field of the stored ledger state otherwise, and
`displayCounterValue` reports that no counter contract is deployed exactly
when the queried value is `null`. -/
theorem getCounterLedgerState_null_or_round (providers : PublicDataProvider)
    (contractAddress : ContractAddress)
    (hv : providers.validAddress contractAddress = true) :
    (getCounterLedgerState providers contractAddress = Except.ok none
      ↔ providers.contractState contractAddress = none) ∧
    (∀ cs, providers.contractState contractAddress = some cs →
      getCounterLedgerState providers contractAddress = Except.ok (some cs.round)) ∧
    (∀ dr, displayCounterValue providers contractAddress = Except.ok dr →
      (dr.message = CounterMessage.noContractDeployed contractAddress
        ↔ dr.counterValue = none)) := by
  refine ⟨?_, ?_, ?_⟩
  · simp [getCounterLedgerState, hv]
  · intro cs hcs
    simp [getCounterLedgerState, hv, hcs]
  · intro dr hdr
    unfold displayCounterValue getCounterLedgerState at hdr
    rw [if_pos hv] at hdr
    cases hcs : providers.contractState contractAddress with
    | none =>
        rw [hcs] at hdr
        injection hdr with hdr
        subst hdr
        simp
    | some cs =>
        rw [hcs] at hdr
        injection hdr with hdr
        subst hdr
        simp

/-- Witness for C10: a provider with no contract state yields `null` without
throwing. -/
theorem getCounterLedgerState_null_or_round_witness :
    getCounterLedgerState ⟨fun _ => true, fun _ => none⟩ ("addr")
      = Except.ok none :=
  (getCounterLedgerState_null_or_round ⟨fun _ => true, fun _ => none⟩
    ("addr") rfl).1.mpr rfl

end ExampleCounter
